import Mathlib

/-!
Shallow embedding of `src/backend/local_llm_malaysian_assistant.py`
(Malaysian Employment Assistant).

Conventions:
* Python floats are modelled as exact rationals (`ℚ`); the numeric claims are
  about the arithmetic formulas of the code, not about IEEE rounding.
* Python string methods used by the code (`lower`, `replace(" ", "_")`,
  `strip`, `title`, substring membership `in`) are embedded as executable
  character-list functions below.
* Formatter methods of the source return fixed f-string templates; each is
  embedded as a structure whose fields are exactly the values interpolated
  into that fixed template, in source order.  String-building code whose
  output shape the claims inspect byte-for-byte (the prompt builder, the
  generation adapter) is embedded as actual `String` computations.
* The external HuggingFace pipeline is an opaque effect; it is passed in as
  a function `String → GenParams → Except String String` (`Except.error`
  models a raised exception, carrying the rendered exception text).
-/

namespace FYP

/-! ### Python string primitives -/

/-- Python `str.lower()` (ASCII case mapping, which covers every string the
program compares). -/
def pyLower (s : String) : String := ⟨s.data.map Char.toLower⟩

/-- Python `str.replace(" ", "_")`: the pattern is a single character, so it
is a character-wise map. -/
def pySpaceToUnderscore (s : String) : String :=
  ⟨s.data.map (fun c => if c = ' ' then '_' else c)⟩

/-- Python `str.strip()`: remove leading and trailing whitespace. -/
def pyStrip (s : String) : String :=
  ⟨((s.data.dropWhile Char.isWhitespace).reverse.dropWhile Char.isWhitespace).reverse⟩

/-- Helper for `pyTitle`: the Boolean records whether the previous character
was a word boundary (start of string or non-alphabetic). -/
def pyTitleAux : List Char → Bool → List Char
  | [], _ => []
  | c :: cs, boundary =>
    if c.isAlpha then
      (if boundary then c.toUpper else c.toLower) :: pyTitleAux cs false
    else
      c :: pyTitleAux cs true

/-- Python `str.title()`: capitalize the first letter of each word, lowercase
the rest. -/
def pyTitle (s : String) : String := ⟨pyTitleAux s.data true⟩

/-- Helper for `containsSubstr`: does `pat` occur in the list? -/
def containsSubstrAux (pat : List Char) : List Char → Bool
  | [] => pat.isEmpty
  | c :: cs => pat.isPrefixOf (c :: cs) || containsSubstrAux pat cs

/-- Python `pat in s` on strings: substring membership. -/
def containsSubstr (s pat : String) : Bool := containsSubstrAux pat.data s.data

/-- Python truthiness of an optional string (`if system_prompt:`):
`None` and the empty string are falsy. -/
def pyTruthy : Option String → Bool
  | none => false
  | some s => !s.data.isEmpty

/-- The value of an optional string once known truthy. -/
def pyGet (o : Option String) : String := o.getD ""

/-! ### Knowledge base: `MalaysianEmploymentLaw` (constants, dataclass) -/

namespace MalaysianEmploymentLaw

def MAX_HOURS_PER_DAY : ℚ := 8

def MAX_HOURS_PER_WEEK : ℚ := 48

def MAX_OVERTIME_PER_MONTH : ℚ := 104

def MINIMUM_WAGE_MYR : ℚ := 1500

def EPF_EMPLOYEE_RATE : ℚ := 0.11

def EPF_EMPLOYER_RATE : ℚ := 0.13

end MalaysianEmploymentLaw

/-! ### Knowledge base: `MalaysianLivingExpenses.EXPENSES` -/

/-- A `{"min": _, "max": _}` entry of the expense table. -/
structure ExpenseRange where
  min : ℚ
  max : ℚ
deriving DecidableEq

namespace MalaysianLivingExpenses

def kuala_lumpur : List (String × ExpenseRange) :=
  [("rent_1br", ⟨1200, 2500⟩), ("utilities", ⟨150, 300⟩), ("food", ⟨600, 1200⟩),
   ("transport", ⟨200, 500⟩), ("healthcare", ⟨100, 300⟩), ("entertainment", ⟨200, 500⟩)]

def penang : List (String × ExpenseRange) :=
  [("rent_1br", ⟨800, 1800⟩), ("utilities", ⟨120, 250⟩), ("food", ⟨500, 1000⟩),
   ("transport", ⟨150, 400⟩), ("healthcare", ⟨80, 250⟩), ("entertainment", ⟨150, 400⟩)]

def johor_bahru : List (String × ExpenseRange) :=
  [("rent_1br", ⟨700, 1500⟩), ("utilities", ⟨120, 250⟩), ("food", ⟨450, 900⟩),
   ("transport", ⟨150, 350⟩), ("healthcare", ⟨80, 250⟩), ("entertainment", ⟨150, 350⟩)]

/-- The city → category → range table, in source (insertion) order. -/
def EXPENSES : List (String × List (String × ExpenseRange)) :=
  [("kuala_lumpur", kuala_lumpur), ("penang", penang), ("johor_bahru", johor_bahru)]

end MalaysianLivingExpenses

/-! ### `LocalMalaysianAssistant.check_working_hours` -/

/-- The two fixed report templates of `check_working_hours`, with exactly the
values interpolated into each (in source order).  `compliant` renders the
"✅ ... comply with Malaysian Employment Act (max ... hrs/week)" template;
`exceeded` renders the "⚠️ ... EXCEED the legal limit ... Overtime: ...
hours/week ... Maximum overtime: ... hours/month ..." template. -/
inductive HoursReport where
  | compliant (hours_per_week max_hours_per_week : ℚ)
  | exceeded (hours_per_week max_hours_per_week overtime max_overtime_per_month : ℚ)
deriving DecidableEq

open MalaysianEmploymentLaw in
/-- `check_working_hours(hours_per_week)`. -/
def check_working_hours (hours_per_week : ℚ) : HoursReport :=
  if hours_per_week ≤ MAX_HOURS_PER_WEEK then
    HoursReport.compliant hours_per_week MAX_HOURS_PER_WEEK
  else
    HoursReport.exceeded hours_per_week MAX_HOURS_PER_WEEK
      (hours_per_week - MAX_HOURS_PER_WEEK) MAX_OVERTIME_PER_MONTH

/-! ### `LocalMalaysianAssistant.calculate_salary_breakdown` -/

/-- The values interpolated into the fixed "💰 Salary Breakdown" template, in
source order (`employer_total` is the inline sum printed on the last line). -/
structure SalaryBreakdown where
  gross_salary : ℚ
  epf_employee : ℚ
  epf_employer : ℚ
  socso_employee : ℚ
  socso_employer : ℚ
  eis_employee : ℚ
  eis_employer : ℚ
  total_deductions : ℚ
  net_pay : ℚ
  employer_total : ℚ
deriving DecidableEq

open MalaysianEmploymentLaw in
/-- `calculate_salary_breakdown(gross_salary)`. -/
def calculate_salary_breakdown (gross_salary : ℚ) : SalaryBreakdown :=
  let epf_employee := gross_salary * EPF_EMPLOYEE_RATE
  let epf_employer := gross_salary * EPF_EMPLOYER_RATE
  let socso_employee := if gross_salary ≤ 5000 then min (gross_salary * 0.005) 24.75 else 24.75
  let socso_employer := if gross_salary ≤ 5000 then min (gross_salary * 0.018) 89.25 else 89.25
  let eis_employee := min (gross_salary * 0.002) 7.90
  let eis_employer := min (gross_salary * 0.002) 7.90
  let total_deductions := epf_employee + socso_employee + eis_employee
  let net_pay := gross_salary - total_deductions
  ⟨gross_salary, epf_employee, epf_employer, socso_employee, socso_employer,
   eis_employee, eis_employer, total_deductions, net_pay,
   epf_employer + socso_employer + eis_employer⟩

/-! ### `LocalMalaysianAssistant.calculate_expense_budget` -/

/-- The values interpolated into the fixed "🏙️ Living Expenses Budget"
template, in source order: the title-cased city header, the six per-category
ranges (the `expenses` table actually used), the totals, the salary line, the
savings line, and the financial-health tag. -/
structure ExpenseBudgetReport where
  city_title : String
  expenses : List (String × ExpenseRange)
  total_min : ℚ
  total_max : ℚ
  total_avg : ℚ
  salary : ℚ
  savings : ℚ
  savings_rate : ℚ
  financial_health : String
deriving DecidableEq

/-- The inline conditional of the report's last line. -/
def financialHealthTag (savings_rate : ℚ) : String :=
  if savings_rate ≥ 20 then "✅ Good"
  else if savings_rate ≥ 10 then "⚠️ Consider budgeting"
  else "❌ Tight budget"

/-- `calculate_expense_budget(city, salary)`. -/
def calculate_expense_budget (city : String) (salary : ℚ) : ExpenseBudgetReport :=
  let city_key := pySpaceToUnderscore (pyLower city)
  let city_key :=
    if (MalaysianLivingExpenses.EXPENSES.lookup city_key).isSome then city_key
    else "kuala_lumpur"
  let expenses := (MalaysianLivingExpenses.EXPENSES.lookup city_key).getD []
  let total_min := (expenses.map (fun cat => cat.2.min)).sum
  let total_max := (expenses.map (fun cat => cat.2.max)).sum
  let total_avg := (total_min + total_max) / 2
  let savings := salary - total_avg
  let savings_rate := if salary > 0 then savings / salary * 100 else 0
  ⟨pyTitle city, expenses, total_min, total_max, total_avg, salary, savings,
   savings_rate, financialHealthTag savings_rate⟩

/-! ### `LocalLLM.generate` and `LocalLLM.chat` -/

/-- The keyword arguments `LocalLLM.generate` passes to the pipeline call. -/
structure GenParams where
  max_new_tokens : ℕ
  do_sample : Bool
  temperature : ℚ
  top_p : ℚ
  return_full_text : Bool
deriving DecidableEq

namespace LocalLLM

/-- `LocalLLM.generate(prompt, max_tokens)`.  The external HuggingFace
pipeline is the parameter `pipe`; `Except.error e` models the pipeline
raising an exception whose `str()` is `e`.  With `return_full_text := false`
the pipeline's `ok` result is the generated continuation without the echoed
prompt; the `try/except` of the source is the `match`. -/
def generate (pipe : String → GenParams → Except String String)
    (prompt : String) (max_tokens : ℕ) : String :=
  match pipe prompt ⟨max_tokens, true, 0.7, 0.95, false⟩ with
  | Except.ok generated_text => pyStrip generated_text
  | Except.error e => "Error generating response: " ++ e

/-- The prompt string `LocalLLM.chat(message, system_prompt)` assembles
before calling `generate`, dispatching on `self.model_name`. -/
def chatPrompt (model_name message : String) (system_prompt : Option String) : String :=
  let lower := pyLower model_name
  if containsSubstr lower "llama-3" || containsSubstr lower "llama3" then
    let p1 := "<|begin_of_text|><|start_header_id|>system<|end_header_id|>\n\n"
    let p2 := if pyTruthy system_prompt then p1 ++ pyGet system_prompt ++ "<|eot_id|>" else p1
    p2 ++ "<|start_header_id|>user<|end_header_id|>\n\n" ++ message ++ "<|eot_id|>" ++
      "<|start_header_id|>assistant<|end_header_id|>\n\n"
  else if containsSubstr lower "phi-3" then
    let p1 := "<|system|>\n"
    let p2 := if pyTruthy system_prompt then p1 ++ pyGet system_prompt ++ "\n" else p1
    p2 ++ "<|end|>\n<|user|>\n" ++ message ++ "<|end|>\n<|assistant|>\n"
  else if containsSubstr lower "mistral" then
    if pyTruthy system_prompt then
      "<s>" ++ "[INST] " ++ pyGet system_prompt ++ "\n\n" ++ message ++ " [/INST]"
    else
      "<s>" ++ "[INST] " ++ message ++ " [/INST]"
  else if containsSubstr lower "gemma" then
    let p1 := "<start_of_turn>user\n"
    let p2 := if pyTruthy system_prompt then p1 ++ pyGet system_prompt ++ "\n\n" else p1
    p2 ++ message ++ "<end_of_turn>\n<start_of_turn>model\n"
  else
    if pyTruthy system_prompt then
      "System: " ++ pyGet system_prompt ++ "\n\nUser: " ++ message ++ "\n\nAssistant:"
    else
      "User: " ++ message ++ "\n\nAssistant:"

/-- `LocalLLM.chat(message, system_prompt)`: build the prompt, then
`generate` with `max_tokens=1024`. -/
def chat (pipe : String → GenParams → Except String String)
    (model_name message : String) (system_prompt : Option String) : String :=
  generate pipe (chatPrompt model_name message system_prompt) 1024

end LocalLLM

/-! ### Spec-side view of the prompt dispatch (for the refinement claim C6)

The spec describes the dispatch as an ordered list of
(pattern alternatives, template) pairs, matched case-insensitively against
the model identifier with first-match-wins semantics and a generic fallback
template.  These definitions follow that description; the theorem for C6
proves the source's `if/elif` chain equal to it. -/

/-- Llama-3 family template (from the source's first branch). -/
def llama3Template (message : String) (system_prompt : Option String) : String :=
  let p1 := "<|begin_of_text|><|start_header_id|>system<|end_header_id|>\n\n"
  let p2 := if pyTruthy system_prompt then p1 ++ pyGet system_prompt ++ "<|eot_id|>" else p1
  p2 ++ "<|start_header_id|>user<|end_header_id|>\n\n" ++ message ++ "<|eot_id|>" ++
    "<|start_header_id|>assistant<|end_header_id|>\n\n"

/-- Phi-3 family template. -/
def phi3Template (message : String) (system_prompt : Option String) : String :=
  let p1 := "<|system|>\n"
  let p2 := if pyTruthy system_prompt then p1 ++ pyGet system_prompt ++ "\n" else p1
  p2 ++ "<|end|>\n<|user|>\n" ++ message ++ "<|end|>\n<|assistant|>\n"

/-- Mistral family template. -/
def mistralTemplate (message : String) (system_prompt : Option String) : String :=
  if pyTruthy system_prompt then
    "<s>" ++ "[INST] " ++ pyGet system_prompt ++ "\n\n" ++ message ++ " [/INST]"
  else
    "<s>" ++ "[INST] " ++ message ++ " [/INST]"

/-- Gemma family template. -/
def gemmaTemplate (message : String) (system_prompt : Option String) : String :=
  let p1 := "<start_of_turn>user\n"
  let p2 := if pyTruthy system_prompt then p1 ++ pyGet system_prompt ++ "\n\n" else p1
  p2 ++ message ++ "<end_of_turn>\n<start_of_turn>model\n"

/-- Generic fallback template: `"System: …\n\nUser: …\n\nAssistant:"` when a
system instruction is present, and the same template without its `System:`
section when it is absent. -/
def genericTemplate (message : String) (system_prompt : Option String) : String :=
  if pyTruthy system_prompt then
    "System: " ++ pyGet system_prompt ++ "\n\nUser: " ++ message ++ "\n\nAssistant:"
  else
    "User: " ++ message ++ "\n\nAssistant:"

/-- The fixed, ordered pattern list of the dispatch: each entry is the
lower-case substring alternatives of one model family, with its template. -/
def familyTemplates : List (List String × (String → Option String → String)) :=
  [(["llama-3", "llama3"], llama3Template), (["phi-3"], phi3Template),
   (["mistral"], mistralTemplate), (["gemma"], gemmaTemplate)]

/-- First-match-wins dispatch over an ordered pattern list: lowercase the
model identifier, take the first entry one of whose patterns occurs in it,
fall back to the generic template. -/
def dispatchPrompt :
    List (List String × (String → Option String → String)) →
    (model_name message : String) → Option String → String
  | [], _, message, system_prompt => genericTemplate message system_prompt
  | (pats, tmpl) :: rest, model_name, message, system_prompt =>
    if pats.any (fun p => containsSubstr (pyLower model_name) p) then
      tmpl message system_prompt
    else
      dispatchPrompt rest model_name message system_prompt

/-! ### Substring predicates (for the byte-level prompt claims) -/

/-- `pat` occurs as a contiguous substring of `s`. -/
def strContains (s pat : String) : Prop := ∃ a b, s = a ++ pat ++ b

/-- `s` starts with `pat`. -/
def strStarts (s pat : String) : Prop := ∃ b, s = pat ++ b

/-- `s` ends with `pat`. -/
def strEnds (s pat : String) : Prop := ∃ a, s = a ++ pat

/-! ### Helper lemmas -/

/-- A prefix of `s` is a prefix of `s ++ t`. -/
lemma strStarts_appendL (s t pat : String) (h : strStarts s pat) : strStarts (s ++ t) pat := by
  obtain ⟨b, rfl⟩ := h
  exact ⟨b ++ t, String.append_assoc pat b t⟩

/-- A prefix occurs as a substring. -/
lemma strContains_of_strStarts (s pat : String) (h : strStarts s pat) : strContains s pat := by
  obtain ⟨b, rfl⟩ := h
  exact ⟨"", b, rfl⟩

/-- Normalizing "Kuala Lumpur" yields the key "kuala_lumpur". -/
lemma normalize_kuala_lumpur : pySpaceToUnderscore (pyLower "Kuala Lumpur") = "kuala_lumpur" := by
  decide

/-- The table lookup for the fallback key. -/
lemma lookup_kuala_lumpur :
    MalaysianLivingExpenses.EXPENSES.lookup "kuala_lumpur" =
      some MalaysianLivingExpenses.kuala_lumpur := by
  decide

/-- Full evaluation of the expense budget when the normalized city key is not
in the table: the Kuala Lumpur figures are used under the typed city's
title-cased header. -/
lemma budget_unknown_eval (city : String) (salary : ℚ)
    (hkey : MalaysianLivingExpenses.EXPENSES.lookup (pySpaceToUnderscore (pyLower city)) = none) :
    calculate_expense_budget city salary =
      ⟨pyTitle city, MalaysianLivingExpenses.kuala_lumpur, 2450, 5300, 3875, salary,
       salary - 3875, if salary > 0 then (salary - 3875) / salary * 100 else 0,
       financialHealthTag (if salary > 0 then (salary - 3875) / salary * 100 else 0)⟩ := by
  simp [calculate_expense_budget, hkey, lookup_kuala_lumpur, MalaysianLivingExpenses.kuala_lumpur]
  norm_num

/-- Full evaluation of the expense budget for the city "Kuala Lumpur". -/
lemma budget_KL_eval (salary : ℚ) :
    calculate_expense_budget "Kuala Lumpur" salary =
      ⟨"Kuala Lumpur", MalaysianLivingExpenses.kuala_lumpur, 2450, 5300, 3875, salary,
       salary - 3875, if salary > 0 then (salary - 3875) / salary * 100 else 0,
       financialHealthTag (if salary > 0 then (salary - 3875) / salary * 100 else 0)⟩ := by
  simp [calculate_expense_budget, normalize_kuala_lumpur, lookup_kuala_lumpur,
    MalaysianLivingExpenses.kuala_lumpur]
  norm_num
  decide

/-! ### Claim theorems -/

/-- C1: for every weekly hours value `h`, if `h ≤ 48` the working-hours
compliance formatter returns the compliant report (in particular `h = 48` is
compliant), and if `h > 48` it returns the exceeding report with overtime
`h - 48` (and the 104 hours/month overtime cap text). -/
theorem check_working_hours_spec (h : ℚ) :
    (h ≤ 48 → check_working_hours h = HoursReport.compliant h 48) ∧
    (h > 48 → check_working_hours h = HoursReport.exceeded h 48 (h - 48) 104) := by
  unfold check_working_hours
  unfold MalaysianEmploymentLaw.MAX_HOURS_PER_WEEK MalaysianEmploymentLaw.MAX_OVERTIME_PER_MONTH
  constructor
  · intro hh
    rw [if_pos hh]
  · intro hh
    rw [if_neg (not_le.mpr hh)]

/-- Witness for C1 at `h = 48` (boundary, compliant) and `h = 50` (overtime 2). -/
theorem check_working_hours_spec_witness :
    check_working_hours 48 = HoursReport.compliant 48 48 ∧
    check_working_hours 50 = HoursReport.exceeded 50 48 2 104 := by
  refine ⟨(check_working_hours_spec 48).1 (by norm_num), ?_⟩
  have h2 := (check_working_hours_spec 50).2 (by norm_num)
  norm_num at h2
  exact h2

/-- C2: for every gross salary `g` the salary-breakdown formatter computes the
EPF employee contribution as exactly `0.11 * g` and the employer contribution
as exactly `0.13 * g`; at `g = 3000` it reports EPF employee 330, EPF
employer 390 and SOCSO employee 15. -/
theorem calculate_salary_breakdown_epf_spec :
    (∀ g : ℚ, (calculate_salary_breakdown g).epf_employee = 0.11 * g ∧
      (calculate_salary_breakdown g).epf_employer = 0.13 * g) ∧
    (calculate_salary_breakdown 3000).epf_employee = 330 ∧
    (calculate_salary_breakdown 3000).epf_employer = 390 ∧
    (calculate_salary_breakdown 3000).socso_employee = 15 := by
  refine ⟨fun g => ⟨?_, ?_⟩, ?_, ?_, ?_⟩ <;>
    norm_num [calculate_salary_breakdown, MalaysianEmploymentLaw.EPF_EMPLOYEE_RATE,
      MalaysianEmploymentLaw.EPF_EMPLOYER_RATE, min_def, mul_comm]

/-- C3: for every gross salary `g`, the SOCSO employee contribution is
`min (0.005 * g) 24.75` when `g ≤ 5000` and the flat 24.75 when `g > 5000`. -/
theorem socso_employee_spec (g : ℚ) :
    (g ≤ 5000 → (calculate_salary_breakdown g).socso_employee = min (0.005 * g) 24.75) ∧
    (g > 5000 → (calculate_salary_breakdown g).socso_employee = 24.75) := by
  unfold calculate_salary_breakdown
  constructor
  · intro hg
    simp only [if_pos hg]
    rw [mul_comm]
  · intro hg
    simp only [if_neg (not_le.mpr hg)]

/-- Witness for C3 at `g = 3000` (percentage branch) and `g = 6000` (flat). -/
theorem socso_employee_spec_witness :
    (calculate_salary_breakdown 3000).socso_employee = 15 ∧
    (calculate_salary_breakdown 6000).socso_employee = 24.75 := by
  constructor
  · have h := (socso_employee_spec 3000).1 (by norm_num)
    rw [h]; norm_num [min_def]
  · exact (socso_employee_spec 6000).2 (by norm_num)

/-- C9: for every gross salary `g`, both EIS contributions are
`min (0.002 * g) 7.90` with no threshold branch, so employee and employer EIS
contributions are always equal. -/
theorem eis_spec (g : ℚ) :
    (calculate_salary_breakdown g).eis_employee = min (0.002 * g) 7.90 ∧
    (calculate_salary_breakdown g).eis_employer = min (0.002 * g) 7.90 ∧
    (calculate_salary_breakdown g).eis_employer = (calculate_salary_breakdown g).eis_employee := by
  have h1 : (calculate_salary_breakdown g).eis_employee = min (g * 0.002) 7.90 := rfl
  have h2 : (calculate_salary_breakdown g).eis_employer = min (g * 0.002) 7.90 := rfl
  rw [h1, h2, mul_comm]
  exact ⟨rfl, rfl, rfl⟩

/-- C4: for every city name, the expense budget at salary 0 takes the guarded
branch (the division is not evaluated) and reports a savings rate of 0. -/
theorem zero_salary_savings_rate (city : String) :
    (calculate_expense_budget city 0).savings_rate = 0 := by
  simp [calculate_expense_budget]

/-- C5: for every city string, the formatter normalizes the city by
lowercasing and replacing spaces with underscores; when the normalized key is
not in the expense table, the Kuala Lumpur table supplies every per-category
range and the totals and average of the report. -/
theorem unknown_city_fallback (city : String) (salary : ℚ)
    (hkey : MalaysianLivingExpenses.EXPENSES.lookup (pySpaceToUnderscore (pyLower city)) = none) :
    (calculate_expense_budget city salary).expenses = MalaysianLivingExpenses.kuala_lumpur ∧
    (calculate_expense_budget city salary).total_min = 2450 ∧
    (calculate_expense_budget city salary).total_max = 5300 ∧
    (calculate_expense_budget city salary).total_avg = 3875 := by
  rw [budget_unknown_eval city salary hkey]
  exact ⟨rfl, rfl, rfl, rfl⟩

/-- Witness for C5: "Atlantis" normalizes to "atlantis", which is not in the
table, and the report carries the Kuala Lumpur average. -/
theorem unknown_city_fallback_witness :
    MalaysianLivingExpenses.EXPENSES.lookup (pySpaceToUnderscore (pyLower "Atlantis")) = none ∧
    (calculate_expense_budget "Atlantis" 4000).total_avg = 3875 :=
  ⟨by decide, (unknown_city_fallback "Atlantis" 4000 (by decide)).2.2.2⟩

/-- C10: for every unrecognized city, the report header still carries the
typed city name title-cased, while every other field of the report — all six
category ranges, totals, average, savings, savings rate and health tag —
coincides with the genuine Kuala Lumpur report at the same salary; the report
carries no field recording that the fallback was taken. -/
theorem unknown_city_header_spec (city : String) (salary : ℚ)
    (hkey : MalaysianLivingExpenses.EXPENSES.lookup (pySpaceToUnderscore (pyLower city)) = none) :
    (calculate_expense_budget city salary).city_title = pyTitle city ∧
    (calculate_expense_budget city salary).expenses =
      (calculate_expense_budget "Kuala Lumpur" salary).expenses ∧
    (calculate_expense_budget city salary).total_min =
      (calculate_expense_budget "Kuala Lumpur" salary).total_min ∧
    (calculate_expense_budget city salary).total_max =
      (calculate_expense_budget "Kuala Lumpur" salary).total_max ∧
    (calculate_expense_budget city salary).total_avg =
      (calculate_expense_budget "Kuala Lumpur" salary).total_avg ∧
    (calculate_expense_budget city salary).salary =
      (calculate_expense_budget "Kuala Lumpur" salary).salary ∧
    (calculate_expense_budget city salary).savings =
      (calculate_expense_budget "Kuala Lumpur" salary).savings ∧
    (calculate_expense_budget city salary).savings_rate =
      (calculate_expense_budget "Kuala Lumpur" salary).savings_rate ∧
    (calculate_expense_budget city salary).financial_health =
      (calculate_expense_budget "Kuala Lumpur" salary).financial_health := by
  rw [budget_unknown_eval city salary hkey, budget_KL_eval salary]
  exact ⟨rfl, rfl, rfl, rfl, rfl, rfl, rfl, rfl, rfl⟩

/-- Witness for C10 at city "Atlantis", salary 4000. -/
theorem unknown_city_header_spec_witness :
    (calculate_expense_budget "Atlantis" 4000).city_title = "Atlantis" ∧
    (calculate_expense_budget "Atlantis" 4000).savings_rate =
      (calculate_expense_budget "Kuala Lumpur" 4000).savings_rate := by
  have h := unknown_city_header_spec "Atlantis" 4000 (by decide)
  exact ⟨by rw [h.1]; decide, h.2.2.2.2.2.2.2.1⟩

/-- C8: for every pipeline, prompt and token budget, the generation adapter
returns the engine's continuation (requested with `return_full_text := false`,
i.e. without the echoed prompt) stripped of leading and trailing whitespace
when the engine succeeds, and when the engine raises it returns the formatted
error string instead of propagating (`generate` is a total `String`-valued
function). -/
theorem generate_spec (pipe : String → GenParams → Except String String)
    (prompt : String) (max_tokens : ℕ) :
    (∀ res, pipe prompt ⟨max_tokens, true, 0.7, 0.95, false⟩ = Except.ok res →
      LocalLLM.generate pipe prompt max_tokens = pyStrip res) ∧
    (∀ e, pipe prompt ⟨max_tokens, true, 0.7, 0.95, false⟩ = Except.error e →
      LocalLLM.generate pipe prompt max_tokens = "Error generating response: " ++ e) := by
  constructor <;> intro x hx <;> simp [LocalLLM.generate, hx]

/-- Witness for C8: a succeeding engine's reply is stripped, a raising
engine's exception is rendered as an error string. -/
theorem generate_spec_witness :
    LocalLLM.generate (fun _ _ => Except.ok "  hello  ") "p" 5 = "hello" ∧
    LocalLLM.generate (fun _ _ => Except.error "boom") "p" 5 =
      "Error generating response: boom" := by
  constructor
  · have h := (generate_spec (fun _ _ => Except.ok "  hello  ") "p" 5).1 "  hello  " rfl
    rw [h]; decide
  · exact (generate_spec (fun _ _ => Except.error "boom") "p" 5).2 "boom" rfl

/-- A non-empty optional string is truthy. -/
lemma pyTruthy_some_of_ne (s : String) (h : s.data ≠ []) : pyTruthy (some s) = true := by
  cases hd : s.data with
  | nil => exact absurd hd h
  | cons a l => simp [pyTruthy, hd]

/-- C6: the prompt builder's `if/elif` chain equals first-match-wins dispatch
over the fixed ordered pattern list `familyTemplates` (each pattern matched
case-insensitively, i.e. as a substring of the lowercased model identifier),
with the generic `genericTemplate` ("System: …\n\nUser: …\n\nAssistant:"
when a system instruction is present) as the no-match fallback; moreover when
none of the family substrings occurs, the produced prompt is literally that
generic template. -/
theorem chatPrompt_dispatch_spec (model_name message : String) (system_prompt : Option String) :
    LocalLLM.chatPrompt model_name message system_prompt =
      dispatchPrompt familyTemplates model_name message system_prompt ∧
    (containsSubstr (pyLower model_name) "llama-3" = false →
     containsSubstr (pyLower model_name) "llama3" = false →
     containsSubstr (pyLower model_name) "phi-3" = false →
     containsSubstr (pyLower model_name) "mistral" = false →
     containsSubstr (pyLower model_name) "gemma" = false →
     ∀ s : String, s.data ≠ [] →
       LocalLLM.chatPrompt model_name message (some s) =
         "System: " ++ s ++ "\n\nUser: " ++ message ++ "\n\nAssistant:") := by
  constructor
  · simp only [LocalLLM.chatPrompt, dispatchPrompt, familyTemplates, List.any_cons, List.any_nil,
      Bool.or_false, llama3Template, phi3Template, mistralTemplate, gemmaTemplate, genericTemplate]
  · intro h1 h2 h3 h4 h5 s hs
    simp only [LocalLLM.chatPrompt, h1, h2, h3, h4, h5, Bool.or_self, Bool.false_eq_true,
      if_false, pyTruthy_some_of_ne s hs, if_true, pyGet, Option.getD_some]

/-- Witness for C6: an identifier matching no family produces the generic
template. -/
theorem chatPrompt_dispatch_spec_witness :
    LocalLLM.chatPrompt "openai/gpt-4" "hi" (some "be nice") =
      "System: " ++ "be nice" ++ "\n\nUser: " ++ "hi" ++ "\n\nAssistant:" :=
  (chatPrompt_dispatch_spec "openai/gpt-4" "hi" (some "be nice")).2
    (by decide) (by decide) (by decide) (by decide) (by decide) "be nice" (by decide)

/-- C7: for every user message and optional system instruction, the prompt
built for "meta-llama/Meta-Llama-3-8B-Instruct" contains the exact substrings
`<|begin_of_text|>` and `<|eot_id|>`, and the prompt built for
"mistralai/Mistral-7B-Instruct-v0.3" starts with `<s>[INST] ` and ends with
` [/INST]`. -/
theorem prompt_markers_spec (message : String) (system_prompt : Option String) :
    strContains (LocalLLM.chatPrompt "meta-llama/Meta-Llama-3-8B-Instruct" message system_prompt)
      "<|begin_of_text|>" ∧
    strContains (LocalLLM.chatPrompt "meta-llama/Meta-Llama-3-8B-Instruct" message system_prompt)
      "<|eot_id|>" ∧
    strStarts (LocalLLM.chatPrompt "mistralai/Mistral-7B-Instruct-v0.3" message system_prompt)
      "<s>[INST] " ∧
    strEnds (LocalLLM.chatPrompt "mistralai/Mistral-7B-Instruct-v0.3" message system_prompt)
      " [/INST]" := by
  have hL : LocalLLM.chatPrompt "meta-llama/Meta-Llama-3-8B-Instruct" message system_prompt =
      (if pyTruthy system_prompt then
        "<|begin_of_text|><|start_header_id|>system<|end_header_id|>\n\n" ++
          pyGet system_prompt ++ "<|eot_id|>"
       else "<|begin_of_text|><|start_header_id|>system<|end_header_id|>\n\n") ++
      "<|start_header_id|>user<|end_header_id|>\n\n" ++ message ++ "<|eot_id|>" ++
      "<|start_header_id|>assistant<|end_header_id|>\n\n" := by
    simp only [LocalLLM.chatPrompt]
    rw [if_pos (by decide)]
  have hM : LocalLLM.chatPrompt "mistralai/Mistral-7B-Instruct-v0.3" message system_prompt =
      if pyTruthy system_prompt then
        "<s>" ++ "[INST] " ++ pyGet system_prompt ++ "\n\n" ++ message ++ " [/INST]"
      else "<s>" ++ "[INST] " ++ message ++ " [/INST]" := by
    simp only [LocalLLM.chatPrompt]
    rw [if_neg (by decide), if_neg (by decide), if_pos (by decide)]
  rw [hL, hM]
  cases htr : pyTruthy system_prompt with
  | true =>
    simp only [htr, if_true]
    refine ⟨?_, ⟨_, _, rfl⟩, ?_, ⟨_, rfl⟩⟩
    · exact strContains_of_strStarts _ _
        (strStarts_appendL _ _ _ (strStarts_appendL _ _ _ (strStarts_appendL _ _ _
          (strStarts_appendL _ _ _ (strStarts_appendL _ _ _ (strStarts_appendL _ _ _
            ⟨"<|start_header_id|>system<|end_header_id|>\n\n", rfl⟩))))))
    · exact strStarts_appendL _ _ _ (strStarts_appendL _ _ _ (strStarts_appendL _ _ _
        ⟨pyGet system_prompt, rfl⟩))
  | false =>
    simp only [htr, Bool.false_eq_true, if_false]
    refine ⟨?_, ⟨_, _, rfl⟩, ?_, ⟨_, rfl⟩⟩
    · exact strContains_of_strStarts _ _
        (strStarts_appendL _ _ _ (strStarts_appendL _ _ _ (strStarts_appendL _ _ _
          (strStarts_appendL _ _ _
            ⟨"<|start_header_id|>system<|end_header_id|>\n\n", rfl⟩))))
    · exact strStarts_appendL _ _ _ ⟨message, rfl⟩

end FYP
